import Mathlib

/-!
# easy_profiler: Windows context-switch tracer (event_trace_win.cpp)

A shallow embedding of `src/easy_profiler_core/event_trace_win.cpp`.

* The two static hash maps are association lists keyed by a number.  A
  `ProcessInfo*` stored in `THREAD_PROCESS_INFO_TABLE` is either `nullptr`
  (`none`) or the address of a node of `PROCESS_INFO_TABLE`, which is
  represented by the key of that node (`some pid`).
* Every call that leaves the translation unit (Win32 queries, the two calls on
  `MANAGER`, sleeping, thread creation) is appended to a trace of `Call`s, so
  that the order and the number of the calls can be stated.
* The answers of the operating system are inputs: an `Os` record is supplied
  with each delivered event, a stream of `StartTrace` results and an
  `OpenTrace` result with each `enable`.
-/

namespace EasyProfiler

/-! ## Association lists standing for `std::unordered_map` -/

/-- The `find` member of an unordered map: the value stored under key `k`, if any. -/
def tfind {α : Type} : List (Nat × α) → Nat → Option α
  | [], _ => none
  | (k', v) :: t, k => if k' = k then some v else tfind t k

/-- The assignment `m[k] = v`: overwrite the node of key `k`, or add one. -/
def tset {α : Type} : List (Nat × α) → Nat → α → List (Nat × α)
  | [], k, v => [(k, v)]
  | (k', v') :: t, k, v => if k' = k then (k, v) :: t else (k', v') :: tset t k v

/-! ## Data model (lines 73-116) -/

/-- The `SWITCH_CONTEXT_OPCODE` constant (line 77). -/
def SWITCH_CONTEXT_OPCODE : Nat := 36

/-- The initial value `~0ULL` of `TRACING_END_TIME` (line 73). -/
def TRACING_END_TIME_MAX : Nat := 2 ^ 64 - 1

/-- The `struct ProcessInfo` (lines 82-86), with its default member initialisers. -/
structure ProcessInfo where
  name : String := ""
  id : Nat := 0
  valid : Int := 0
  deriving DecidableEq

/-- The `struct CSwitch` (lines 93-107): the payload of a context-switch event. -/
structure CSwitch where
  NewThreadId : Nat
  OldThreadId : Nat
  NewThreadPriority : Int := 0
  OldThreadPriority : Int := 0
  PreviousCState : Nat := 0
  SpareByte : Int := 0
  OldThreadWaitReason : Int := 0
  OldThreadWaitMode : Int := 0
  OldThreadState : Int := 0
  OldThreadWaitIdealProcessor : Int := 0
  NewThreadWaitTime : Nat := 0
  Reserved : Nat := 0
  deriving DecidableEq

/-- The value of `sizeof(CSwitch)`: two `uint32_t`, eight one-byte members, two
`uint32_t`; every member is naturally aligned, so there is no padding. -/
def sizeof_CSwitch : Nat := 4 + 4 + (1 + 1 + 1 + 1 + 1 + 1 + 1 + 1) + 4 + 4

/-- The members of `EVENT_RECORD` that `processTraceEvent` reads: the opcode of
the event descriptor, `TimeStamp.QuadPart` (a signed 64-bit integer),
`UserDataLength`, and `UserData` seen through the `reinterpret_cast` of line 130. -/
structure EVENT_RECORD where
  Opcode : Nat
  TimeStamp : Int
  UserDataLength : Nat
  UserData : CSwitch
  deriving DecidableEq

/-- The two static maps of lines 115-116. -/
structure Tables where
  PROCESS_INFO_TABLE : List (Nat × ProcessInfo)
  THREAD_PROCESS_INFO_TABLE : List (Nat × Option Nat)
  deriving DecidableEq

/-- The static initialisers of lines 115-116: no process, and `initial[0U] = nullptr`. -/
def Tables.initial : Tables :=
  { PROCESS_INFO_TABLE := [], THREAD_PROCESS_INFO_TABLE := [(0, none)] }

/-- The answers of the operating system to the queries of one `processTraceEvent`
call.  `OpenThread` and `OpenProcess` give `none` for a null handle;
`GetModuleBaseName` gives the characters copied into `buf`, its length being the
returned `len`. -/
structure Os where
  OpenThread : Nat → Option Nat
  GetProcessIdOfThread : Nat → Nat
  OpenProcess : Nat → Option Nat
  GetModuleBaseName : Nat → String

/-- The calls `processTraceEvent` makes outside its translation unit. -/
inductive Call where
  | OpenThread (tid : Nat)
  | GetProcessIdOfThread (hThread : Nat)
  | OpenProcess (pid : Nat)
  | GetModuleBaseName (hProc : Nat)
  | CloseHandle (h : Nat)
  | beginContextSwitch (old_thread time new_thread : Nat) (name : String)
  | endContextSwitch (new_thread pid time : Nat)
  deriving DecidableEq

/-- Whether a call goes to the sink `MANAGER`. -/
def Call.isSink : Call → Bool
  | .beginContextSwitch _ _ _ _ => true
  | .endContextSwitch _ _ _ => true
  | _ => false

/-- The calls of a trace that went to the sink. -/
def sinkCalls (tr : List Call) : List Call := tr.filter Call.isSink

/-- Whether a call is an operating-system query. -/
def Call.isQuery (c : Call) : Bool := !c.isSink

/-! ## `processTraceEvent` (lines 120-221) -/

/-- The cast `static_cast<timestamp_t>(TimeStamp.QuadPart)` of line 131: a signed
64-bit value read as an unsigned one (`timestamp_t`, declared in a header that is
not among the sources, is the unsigned 64-bit timestamp of the sink interface of
the spec). -/
def timeOf (ev : EVENT_RECORD) : Nat := (ev.TimeStamp % 2 ^ 64).toNat

/-- The subscript `PROCESS_INFO_TABLE[pid]` of line 146: a default-constructed
node is added when the key is absent. -/
def subscript (t : List (Nat × ProcessInfo)) (pid : Nat) : List (Nat × ProcessInfo) :=
  match tfind t pid with
  | some _ => t
  | none => tset t pid {}

/-- Lines 148-195: the body guarded by `pinfo->valid == 0`, on the node `pinfo`
of process `pid`.  Gives the node afterwards and the calls made. -/
def resolveName (os : Os) (pid : Nat) (pinfo : ProcessInfo) : ProcessInfo × List Call :=
  if pinfo.valid = 0 then
    let pinfo1 : ProcessInfo :=
      if pinfo.name = "" then { pinfo with name := toString pid, id := pid } else pinfo
    match os.OpenProcess pid with
    | some hProc =>
      let buf := os.GetModuleBaseName hProc
      let pinfo2 : ProcessInfo :=
        if buf.length ≠ 0 then { pinfo1 with name := pinfo1.name ++ " " ++ buf, valid := 1 }
        else pinfo1
      (pinfo2, [Call.OpenProcess pid, Call.GetModuleBaseName hProc, Call.CloseHandle hProc])
    | none =>
      let pinfo2 : ProcessInfo := { pinfo1 with valid := -1 }
      let pinfo3 : ProcessInfo :=
        if pid = 4 then { pinfo2 with name := pinfo2.name ++ " System" } else pinfo2
      (pinfo3, [Call.OpenProcess pid])
  else (pinfo, [])

/-- The outcome of lines 135-217: the tables afterwards, the locals `pid` and
`process_name`, and the calls made. -/
structure Attribution where
  tables : Tables
  pid : Nat
  process_name : String
  calls : List Call

/-- Lines 135-217 of `processTraceEvent`: find the process of `NewThreadId`. -/
def attributeThread (os : Os) (tb : Tables) (NewThreadId : Nat) : Attribution :=
  match tfind tb.THREAD_PROCESS_INFO_TABLE NewThreadId with
  | none =>
    match os.OpenThread NewThreadId with
    | some hThread =>
      let pid := os.GetProcessIdOfThread hThread
      let table1 := subscript tb.PROCESS_INFO_TABLE pid
      let r := resolveName os pid ((tfind table1 pid).getD {})
      { tables :=
          { PROCESS_INFO_TABLE := tset table1 pid r.1
            THREAD_PROCESS_INFO_TABLE := tset tb.THREAD_PROCESS_INFO_TABLE NewThreadId (some pid) }
        pid := pid
        process_name := r.1.name
        calls := [Call.OpenThread NewThreadId, Call.GetProcessIdOfThread hThread] ++ r.2
                   ++ [Call.CloseHandle hThread] }
    | none =>
      { tables := { tb with
          THREAD_PROCESS_INFO_TABLE := tset tb.THREAD_PROCESS_INFO_TABLE NewThreadId none }
        pid := 0
        process_name := ""
        calls := [Call.OpenThread NewThreadId] }
  | some (some key) =>
    { tables := tb
      pid := 0
      process_name := ((tfind tb.PROCESS_INFO_TABLE key).getD {}).name
      calls := [] }
  | some none =>
    { tables := tb
      pid := 0
      process_name :=
        if NewThreadId = 0 then "System Idle" else if NewThreadId = 4 then "System" else ""
      calls := [] }

/-- The callback `processTraceEvent` (lines 120-221).  `cutoff` is the value the
acquire load of `TRACING_END_TIME` gives at line 132.  The instrumentation macro
of line 128, which is switched `OFF`, is left out. -/
def processTraceEvent (cutoff : Nat) (os : Os) (tb : Tables) (ev : EVENT_RECORD) :
    Tables × List Call :=
  if ev.Opcode ≠ SWITCH_CONTEXT_OPCODE then (tb, [])
  else if sizeof_CSwitch ≠ ev.UserDataLength then (tb, [])
  else
    let time := timeOf ev
    if time > cutoff then (tb, [])
    else
      let a := attributeThread os tb ev.UserData.NewThreadId
      (a.tables,
        a.calls ++
          [Call.beginContextSwitch ev.UserData.OldThreadId time ev.UserData.NewThreadId
              a.process_name,
            Call.endContextSwitch ev.UserData.NewThreadId a.pid time])

/-- One delivery of the consumer thread: the event, the cutoff read at line 132
and the answers of the operating system during the call. -/
structure Delivery where
  cutoff : Nat
  os : Os
  ev : EVENT_RECORD

/-- The consumer thread: `processTraceEvent` on each delivery in turn, the calls
concatenated in the order made. -/
def run : Tables → List Delivery → Tables × List Call
  | tb, [] => (tb, [])
  | tb, d :: ds =>
    let r := processTraceEvent d.cutoff d.os tb d.ev
    let rest := run r.1 ds
    (rest.1, r.2 ++ rest.2)

/-- The event passes the three checks of lines 122-133. -/
def accepted (d : Delivery) : Prop :=
  d.ev.Opcode = SWITCH_CONTEXT_OPCODE ∧ d.ev.UserDataLength = sizeof_CSwitch ∧
    timeOf d.ev ≤ d.cutoff

instance (d : Delivery) : Decidable (accepted d) := by
  unfold accepted; infer_instance

/-- The tables a session can be in: those obtained from the static initialisers
by any deliveries. -/
inductive Reachable : Tables → Prop where
  | initial : Reachable Tables.initial
  | step (tb : Tables) (cutoff : Nat) (os : Os) (ev : EVENT_RECORD) :
      Reachable tb → Reachable (processTraceEvent cutoff os tb ev).1

/-- The pairs `(pid, process_name)` found for the deliveries of a run, in order. -/
def attributions : Tables → List Delivery → List (Nat × String)
  | _, [] => []
  | tb, d :: ds =>
    let a := attributeThread d.os tb d.ev.UserData.NewThreadId
    (a.pid, a.process_name) :: attributions a.tables ds

/-- The two sink calls of lines 219-220 for one event and one attribution. -/
def sinkPair (d : Delivery) (a : Nat × String) : List Call :=
  [Call.beginContextSwitch d.ev.UserData.OldThreadId (timeOf d.ev) d.ev.UserData.NewThreadId a.2,
    Call.endContextSwitch d.ev.UserData.NewThreadId a.1 (timeOf d.ev)]

/-- What holds of the node of process `p` in `PROCESS_INFO_TABLE` throughout a
session: its `id` is its key, and while `valid` is 0 its name is the decimal
form of the key. -/
def NodeOk (p : Nat) (info : ProcessInfo) : Prop :=
  info.id = p ∧ (info.valid = 0 → info.name = toString p)

/-- What holds of the two tables throughout a session: thread 0 is mapped to
`nullptr`, and every process node satisfies `NodeOk`. -/
def TablesOk (tb : Tables) : Prop :=
  tfind tb.THREAD_PROCESS_INFO_TABLE 0 = some none ∧
    ∀ p info, tfind tb.PROCESS_INFO_TABLE p = some info → NodeOk p info

/-! ## The session controller (lines 262-451) -/

/-- Modelled from the spec: the enumeration `EventTracingEnableStatus`, declared
in a header that is not among the sources.  Its values are the six status codes
of the spec (LAUNCHED, INSUFFICIENT_RIGHTS, PREEMPTED, BAD_PROPERTIES_SIZE,
OPEN_TRACE_ERROR, UNKNOWN), under the names the source gives them. -/
inductive EventTracingEnableStatus where
  | EVENT_TRACING_LAUNCHED_SUCCESSFULLY
  | EVENT_TRACING_NOT_ENOUGH_ACCESS_RIGHTS
  | EVENT_TRACING_WAS_LAUNCHED_BY_SOMEBODY_ELSE
  | EVENT_TRACING_BAD_PROPERTIES_SIZE
  | EVENT_TRACING_OPEN_TRACE_ERROR
  | EVENT_TRACING_MISTERIOUS_ERROR
  deriving DecidableEq

open EventTracingEnableStatus

/-- The Win32 code `ERROR_SUCCESS`. -/
def ERROR_SUCCESS : Nat := 0

/-- The Win32 code `ERROR_ACCESS_DENIED`. -/
def ERROR_ACCESS_DENIED : Nat := 5

/-- The Win32 code `ERROR_BAD_LENGTH`. -/
def ERROR_BAD_LENGTH : Nat := 24

/-- The Win32 code `ERROR_ALREADY_EXISTS`. -/
def ERROR_ALREADY_EXISTS : Nat := 183

/-- The Win32 value `INVALID_PROCESSTRACE_HANDLE`, all 64 bits set. -/
def INVALID_PROCESSTRACE_HANDLE : Nat := 2 ^ 64 - 1

/-- The calls the controller makes outside its translation unit, and its stores
to the atomic `TRACING_END_TIME`.  `StartTrace` carries the result the call gave;
the handle 0 of `ControlTrace_STOP` is `NULL`; both stop controls name the
session `KERNEL_LOGGER_NAME`. -/
inductive CtlCall where
  | OpenProcessToken
  | LookupPrivilegeValue
  | AdjustTokenPrivileges
  | CloseHandle (h : Nat)
  | StartTrace (result : Nat)
  | ControlTrace_STOP (handle : Nat)
  | sleep_for (ms : Nat)
  | OpenTrace
  | thread_ProcessTrace
  | SetThreadPriority_LOWEST
  | getCurrentTime
  | store_TRACING_END_TIME (value : Nat)
  | CloseTrace (handle : Nat)
  | thread_join
  deriving DecidableEq

/-- The method `EasyEventTracer::startTrace` (lines 316-386).  `results i` is the
value the `i`-th call of `StartTrace` from now on returns. -/
def startTrace (results : Nat → Nat) (force : Bool) (step : Int) :
    EventTracingEnableStatus × List CtlCall :=
  let startTraceResult := results 0
  if startTraceResult = ERROR_SUCCESS then
    (EVENT_TRACING_LAUNCHED_SUCCESSFULLY, [CtlCall.StartTrace startTraceResult])
  else if startTraceResult = ERROR_ALREADY_EXISTS then
    if force then
      let stop := if step = 0 then [CtlCall.ControlTrace_STOP 0] else []
      if _h : step < 4 then
        let r := startTrace (fun i => results (i + 1)) true (step + 1)
        (r.1, [CtlCall.StartTrace startTraceResult] ++ stop ++ [CtlCall.sleep_for 500] ++ r.2)
      else
        (EVENT_TRACING_WAS_LAUNCHED_BY_SOMEBODY_ELSE,
          [CtlCall.StartTrace startTraceResult] ++ stop)
    else
      (EVENT_TRACING_WAS_LAUNCHED_BY_SOMEBODY_ELSE, [CtlCall.StartTrace startTraceResult])
  else if startTraceResult = ERROR_ACCESS_DENIED then
    (EVENT_TRACING_NOT_ENOUGH_ACCESS_RIGHTS, [CtlCall.StartTrace startTraceResult])
  else if startTraceResult = ERROR_BAD_LENGTH then
    (EVENT_TRACING_BAD_PROPERTIES_SIZE, [CtlCall.StartTrace startTraceResult])
  else
    (EVENT_TRACING_MISTERIOUS_ERROR, [CtlCall.StartTrace startTraceResult])
termination_by (4 - step).toNat
decreasing_by omega

/-- Modelled from the spec: the default value of the parameter `_step` of
`startTrace`, declared in `event_trace_win.h`, which is not among the sources;
the spec numbers the first attempt 0. -/
def startTrace_default_step : Int := 0

/-- The status the table of the spec gives a `StartTrace` result other than
already-exists. -/
def statusOfResult (result : Nat) : EventTracingEnableStatus :=
  if result = 0 then EVENT_TRACING_LAUNCHED_SUCCESSFULLY
  else if result = 5 then EVENT_TRACING_NOT_ENOUGH_ACCESS_RIGHTS
  else if result = 24 then EVENT_TRACING_BAD_PROPERTIES_SIZE
  else EVENT_TRACING_MISTERIOUS_ERROR

/-- The calls of a forced start whose first `k` results are already-exists and
whose last start request gives `last`: the first request, the stop control if
there is a retry, then a 500 ms sleep before each of the `k` retries. -/
def forcedCalls (k : Nat) (last : Nat) : List CtlCall :=
  match k with
  | 0 => [CtlCall.StartTrace last]
  | k + 1 =>
    [CtlCall.StartTrace 183, CtlCall.ControlTrace_STOP 0] ++
      (List.replicate k [CtlCall.sleep_for 500, CtlCall.StartTrace 183]).flatten ++
      [CtlCall.sleep_for 500, CtlCall.StartTrace last]

/-- The answers of the operating system during one call of `enable`. -/
structure Kernel where
  OpenProcessToken : Option Nat
  LookupPrivilegeValue : Bool
  AdjustTokenPrivileges : Bool
  StartTrace : Nat → Nat
  OpenTrace : Nat

/-- The members of `EasyEventTracer` the methods read or write, and the static
`alreadySet` of `setProcessPrivileges`.  `m_processThread` tells whether the
thread object holds a running thread. -/
structure EasyEventTracer where
  m_bEnabled : Bool := false
  m_lowPriority : Bool := false
  m_openedHandle : Nat := 0
  m_processThread : Bool := false
  alreadySet : Bool := false
  deriving DecidableEq

/-- The function `setPrivilege` (lines 262-285) on the token `hToken`, 0 being
the null handle: whether the privilege was set, and the calls made. -/
def setPrivilege (k : Kernel) (hToken : Nat) : Bool × List CtlCall :=
  if hToken ≠ 0 then
    if k.LookupPrivilegeValue then
      (k.AdjustTokenPrivileges, [CtlCall.LookupPrivilegeValue, CtlCall.AdjustTokenPrivileges])
    else (false, [CtlCall.LookupPrivilegeValue])
  else (false, [])

/-- The method `setProcessPrivileges` (lines 287-314): the flag `alreadySet`
afterwards and the calls made.  `OpenProcessToken` gives `none` when the call
fails, and otherwise the handle it wrote to `hToken`. -/
def setProcessPrivileges (k : Kernel) (alreadySet : Bool) : Bool × List CtlCall :=
  if alreadySet then (true, [])
  else
    match k.OpenProcessToken with
    | some hToken =>
      (true,
        [CtlCall.OpenProcessToken] ++ (setPrivilege k hToken).2 ++ [CtlCall.CloseHandle hToken])
    | none => (true, [CtlCall.OpenProcessToken])

/-- The method `EasyEventTracer::enable` (lines 388-451): the object afterwards,
the returned status and the calls made.  The spin lock and the filling of the
property block and of the log-file block are left out: the results of
`StartTrace` and `OpenTrace` are inputs. -/
def enable (k : Kernel) (t : EasyEventTracer) (force : Bool) :
    EasyEventTracer × EventTracingEnableStatus × List CtlCall :=
  if t.m_bEnabled then (t, EVENT_TRACING_LAUNCHED_SUCCESSFULLY, [])
  else
    let p := setProcessPrivileges k t.alreadySet
    let t1 := { t with alreadySet := p.1 }
    let res := startTrace k.StartTrace force startTrace_default_step
    if res.1 ≠ EVENT_TRACING_LAUNCHED_SUCCESSFULLY then (t1, res.1, p.2 ++ res.2)
    else
      let t2 := { t1 with m_openedHandle := k.OpenTrace }
      if t2.m_openedHandle = INVALID_PROCESSTRACE_HANDLE then
        (t2, EVENT_TRACING_OPEN_TRACE_ERROR, p.2 ++ res.2 ++ [CtlCall.OpenTrace])
      else
        let t3 := { t2 with m_processThread := true }
        let prio := if t3.m_lowPriority then [CtlCall.SetThreadPriority_LOWEST] else []
        ({ t3 with m_bEnabled := true }, EVENT_TRACING_LAUNCHED_SUCCESSFULLY,
          p.2 ++ res.2 ++ [CtlCall.OpenTrace, CtlCall.thread_ProcessTrace] ++ prio)

/-! ## `disable` (lines 453-476) -/

/-- The state `enable` and `disable` work on: the tracer object, the two static
maps and the atomic `TRACING_END_TIME`. -/
structure Coordinator where
  tracer : EasyEventTracer
  tables : Tables
  TRACING_END_TIME : Nat
  deriving DecidableEq

/-- The state after static initialisation: a tracer that is not enabled, the
tables of lines 115-116 and `TRACING_END_TIME == ~0ULL` (line 73). -/
def Coordinator.initial : Coordinator :=
  { tracer := {}, tables := Tables.initial, TRACING_END_TIME := TRACING_END_TIME_MAX }

/-- The method `EasyEventTracer::disable` (lines 453-476).  `now` is the value
`getCurrentTime()` returns at line 459; `inflight` are the events the consumer
thread still delivers between that store and the end of the `join` of line 466,
with the answers of the operating system to each.  Gives the state afterwards,
the calls of the controller and the calls of the consumer thread meanwhile. -/
def disable (now : Nat) (inflight : List (Os × EVENT_RECORD)) (c : Coordinator) :
    Coordinator × List CtlCall × List Call :=
  if ¬ c.tracer.m_bEnabled then (c, [], [])
  else
    let cutoff := now
    let joinable := c.tracer.m_processThread
    let drained :=
      if joinable then run c.tables (inflight.map fun e => ⟨cutoff, e.1, e.2⟩)
      else (c.tables, [])
    let tracer1 := { c.tracer with m_processThread := false, m_bEnabled := false }
    let tables1 : Tables :=
      { PROCESS_INFO_TABLE := [], THREAD_PROCESS_INFO_TABLE := tset [] 0 none }
    ({ tracer := tracer1, tables := tables1, TRACING_END_TIME := 2 ^ 64 - 1 },
      [CtlCall.getCurrentTime, CtlCall.store_TRACING_END_TIME now,
        CtlCall.ControlTrace_STOP c.tracer.m_openedHandle,
        CtlCall.CloseTrace c.tracer.m_openedHandle] ++
        (if joinable then [CtlCall.thread_join] else []) ++
        [CtlCall.store_TRACING_END_TIME (2 ^ 64 - 1)],
      drained.2)

/-- What can happen to the coordinator: a call of `enable`, a call of `disable`,
or the delivery of one event by the consumer thread. -/
inductive Op where
  | enable (k : Kernel) (force : Bool)
  | disable (now : Nat) (inflight : List (Os × EVENT_RECORD))
  | deliver (os : Os) (ev : EVENT_RECORD)

/-- The state after one completed operation.  An event is delivered only while
the consumer thread runs. -/
def Coordinator.step (c : Coordinator) : Op → Coordinator
  | .enable k force => { c with tracer := (enable k c.tracer force).1 }
  | .disable now inflight => (disable now inflight c).1
  | .deliver os ev =>
    if c.tracer.m_processThread then
      { c with tables := (processTraceEvent c.TRACING_END_TIME os c.tables ev).1 }
    else c

/-- The state after a sequence of completed operations. -/
def Coordinator.exec (c : Coordinator) (ops : List Op) : Coordinator :=
  ops.foldl Coordinator.step c

/-! ## Sample inputs -/

/-- An operating system on which thread 1234 and thread 1235 belong to process
999, whose module is `app.exe`. -/
def osApp : Os :=
  { OpenThread := fun tid => if tid = 1234 ∨ tid = 1235 then some 7 else none
    GetProcessIdOfThread := fun _ => 999
    OpenProcess := fun _ => some 8
    GetModuleBaseName := fun _ => "app.exe" }

/-- Scenario S1: idle to thread 1234 at time 100. -/
def evS1 : EVENT_RECORD :=
  { Opcode := 36, TimeStamp := 100, UserDataLength := 24,
    UserData := { NewThreadId := 1234, OldThreadId := 0 } }

/-- The delivery of `evS1` while the cutoff is `~0ULL`. -/
def dS1 : Delivery := { cutoff := TRACING_END_TIME_MAX, os := osApp, ev := evS1 }

/-- Scenario S2: thread 1234 to the idle thread at time 200. -/
def evS2 : EVENT_RECORD :=
  { Opcode := 36, TimeStamp := 200, UserDataLength := 24,
    UserData := { NewThreadId := 0, OldThreadId := 1234 } }

/-- The delivery of `evS2` while the cutoff is `~0ULL`. -/
def dS2 : Delivery := { cutoff := TRACING_END_TIME_MAX, os := osApp, ev := evS2 }

/-- Scenario S3: thread 1 to thread 77 at time 300. -/
def evS3 : EVENT_RECORD :=
  { Opcode := 36, TimeStamp := 300, UserDataLength := 24,
    UserData := { NewThreadId := 77, OldThreadId := 1 } }

/-- An operating system on which every thread belongs to process 4, which
cannot be opened. -/
def osSystemDenied : Os :=
  { OpenThread := fun _ => some 7
    GetProcessIdOfThread := fun _ => 4
    OpenProcess := fun _ => none
    GetModuleBaseName := fun _ => "" }

/-- An operating system on which every thread belongs to process 4, which can
be opened but whose module name reads as zero characters. -/
def osSystemOpened : Os :=
  { OpenThread := fun _ => some 7
    GetProcessIdOfThread := fun _ => 4
    OpenProcess := fun _ => some 8
    GetModuleBaseName := fun _ => "" }

/-- The delivery of `evS3` on `osSystemDenied`. -/
def dS3 : Delivery := { cutoff := TRACING_END_TIME_MAX, os := osSystemDenied, ev := evS3 }

/-- The delivery of `evS3` on `osSystemOpened`. -/
def dS3opened : Delivery := { cutoff := TRACING_END_TIME_MAX, os := osSystemOpened, ev := evS3 }

/-- Whether a call is a start request. -/
def CtlCall.isStartTrace : CtlCall → Bool
  | .StartTrace _ => true
  | _ => false

/-- Whether a call is a stop control. -/
def CtlCall.isStop : CtlCall → Bool
  | .ControlTrace_STOP _ => true
  | _ => false

/-- Whether a call is a sleep. -/
def CtlCall.isSleep : CtlCall → Bool
  | .sleep_for _ => true
  | _ => false

/-- Scenario S6: already-exists four times, then success. -/
def resultsS6 : Nat → Nat := fun i => if i < 4 then 183 else 0

/-- A kernel on which the privilege is granted and the session starts at once,
but `OpenTrace` gives the invalid handle. -/
def kernelOpenFails : Kernel :=
  { OpenProcessToken := some 3
    LookupPrivilegeValue := true
    AdjustTokenPrivileges := true
    StartTrace := fun _ => 0
    OpenTrace := INVALID_PROCESSTRACE_HANDLE }

/-- A kernel on which the privilege is granted, the session starts at once and
`OpenTrace` gives the handle 12. -/
def kernelOk : Kernel :=
  { OpenProcessToken := some 3
    LookupPrivilegeValue := true
    AdjustTokenPrivileges := true
    StartTrace := fun _ => 0
    OpenTrace := 12 }

/-- An enabled coordinator whose tables hold process 999 and thread 1234. -/
def coordinatorBusy : Coordinator :=
  { tracer := { m_bEnabled := true, m_openedHandle := 12, m_processThread := true,
                alreadySet := true }
    tables :=
      { PROCESS_INFO_TABLE := [(999, { name := "999 app.exe", id := 999, valid := 1 })]
        THREAD_PROCESS_INFO_TABLE := [(0, none), (1234, some 999)] }
    TRACING_END_TIME := TRACING_END_TIME_MAX }

/-! ## Lemmas on the association lists -/

theorem tfind_tset_self {α : Type} (t : List (Nat × α)) (k : Nat) (v : α) :
    tfind (tset t k v) k = some v := by
  induction t with
  | nil => simp [tset, tfind]
  | cons e t ih =>
    obtain ⟨k', v'⟩ := e
    by_cases h : k' = k
    · simp [tset, tfind, h]
    · simp [tset, tfind, h, ih]

theorem tfind_tset_ne {α : Type} (t : List (Nat × α)) (k k' : Nat) (v : α) (h : k ≠ k') :
    tfind (tset t k v) k' = tfind t k' := by
  induction t with
  | nil => simp [tset, tfind, h]
  | cons e t ih =>
    obtain ⟨k0, v0⟩ := e
    by_cases h0 : k0 = k
    · subst h0
      simp [tset, tfind, h]
    · by_cases h1 : k0 = k'
      · subst h1
        simp [tset, tfind, h0]
      · simp [tset, tfind, h0, h1, ih]

theorem tfind_subscript_self (t : List (Nat × ProcessInfo)) (pid : Nat) :
    tfind (subscript t pid) pid = some ((tfind t pid).getD {}) := by
  unfold subscript
  cases h : tfind t pid with
  | none => simp [tfind_tset_self]
  | some v => simp [h]

theorem tfind_subscript_ne (t : List (Nat × ProcessInfo)) (pid p : Nat) (h : pid ≠ p) :
    tfind (subscript t pid) p = tfind t p := by
  unfold subscript
  cases tfind t pid with
  | none => simp [tfind_tset_ne _ _ _ _ h]
  | some v => rfl

/-! ## Lemmas on `processTraceEvent` -/

theorem timeOf_lt (ev : EVENT_RECORD) : timeOf ev < 2 ^ 64 := by
  unfold timeOf
  have h1 : ev.TimeStamp % 2 ^ 64 < 2 ^ 64 := Int.emod_lt_of_pos _ (by norm_num)
  have h2 : 0 ≤ ev.TimeStamp % 2 ^ 64 := Int.emod_nonneg _ (by norm_num)
  omega

theorem sinkCalls_append (xs ys : List Call) :
    sinkCalls (xs ++ ys) = sinkCalls xs ++ sinkCalls ys := by
  simp [sinkCalls]

theorem sinkCalls_resolveName (os : Os) (pid : Nat) (pinfo : ProcessInfo) :
    sinkCalls (resolveName os pid pinfo).2 = [] := by
  unfold resolveName
  split
  · cases os.OpenProcess pid <;> simp [sinkCalls, Call.isSink]
  · simp [sinkCalls]

theorem sinkCalls_attributeThread (os : Os) (tb : Tables) (t : Nat) :
    sinkCalls (attributeThread os tb t).calls = [] := by
  have h := sinkCalls_resolveName os
  unfold attributeThread
  split
  · split
    · simp only [sinkCalls, List.filter_append] at h ⊢
      simp [h, Call.isSink]
    · simp [sinkCalls, Call.isSink]
  · simp [sinkCalls]
  · simp [sinkCalls]

theorem sinkCalls_sinkPair (d : Delivery) (a : Nat × String) :
    sinkCalls (sinkPair d a) = sinkPair d a := by
  simp [sinkCalls, sinkPair, Call.isSink]

theorem accepted_iff (d : Delivery) :
    accepted d ↔ d.ev.Opcode = 36 ∧ d.ev.UserDataLength = 24 ∧ timeOf d.ev ≤ d.cutoff := by
  simp [accepted, SWITCH_CONTEXT_OPCODE, sizeof_CSwitch]

theorem processTraceEvent_accepted (d : Delivery) (tb : Tables) (h : accepted d) :
    processTraceEvent d.cutoff d.os tb d.ev =
      ((attributeThread d.os tb d.ev.UserData.NewThreadId).tables,
        (attributeThread d.os tb d.ev.UserData.NewThreadId).calls ++
          sinkPair d ((attributeThread d.os tb d.ev.UserData.NewThreadId).pid,
            (attributeThread d.os tb d.ev.UserData.NewThreadId).process_name)) := by
  obtain ⟨h1, h2, h3⟩ := h
  simp [processTraceEvent, h1, h2, Nat.not_lt.mpr h3, sinkPair]

theorem processTraceEvent_rejected (cutoff : Nat) (os : Os) (tb : Tables) (ev : EVENT_RECORD)
    (h : ¬ accepted ⟨cutoff, os, ev⟩) : processTraceEvent cutoff os tb ev = (tb, []) := by
  unfold processTraceEvent
  by_cases h1 : ev.Opcode = SWITCH_CONTEXT_OPCODE
  · by_cases h2 : sizeof_CSwitch = ev.UserDataLength
    · by_cases h3 : timeOf ev > cutoff
      · simp [h1, h2, h3]
      · exact absurd ⟨h1, h2.symm, Nat.not_lt.mp h3⟩ h
    · simp [h1, h2]
  · simp [h1]

theorem sinkCalls_run (tb : Tables) (ds : List Delivery) (h : ∀ d ∈ ds, accepted d) :
    sinkCalls (run tb ds).2 = (List.zipWith sinkPair ds (attributions tb ds)).flatten := by
  induction ds generalizing tb with
  | nil => simp [run, attributions, sinkCalls]
  | cons d ds ih =>
    have hd : accepted d := h d (List.mem_cons_self _ _)
    have hds : ∀ e ∈ ds, accepted e := fun e he => h e (List.mem_cons_of_mem _ he)
    simp only [run, attributions, List.zipWith_cons_cons, List.flatten_cons]
    rw [processTraceEvent_accepted d tb hd, sinkCalls_append, sinkCalls_append,
      sinkCalls_attributeThread, sinkCalls_sinkPair, ih _ hds]
    rfl

theorem attributions_length (tb : Tables) (ds : List Delivery) :
    (attributions tb ds).length = ds.length := by
  induction ds generalizing tb with
  | nil => rfl
  | cons d ds ih => simp [attributions, ih]

theorem flatten_zipWith_sinkPair_length (ds : List Delivery) (as : List (Nat × String))
    (h : as.length = ds.length) :
    ((List.zipWith sinkPair ds as).flatten).length = 2 * ds.length := by
  induction ds generalizing as with
  | nil => simp
  | cons d ds ih =>
    cases as with
    | nil => simp at h
    | cons a as =>
      simp only [List.length_cons, Nat.add_right_cancel_iff] at h
      simp only [List.zipWith_cons_cons, List.flatten_cons, List.length_append, ih as h,
        List.length_cons]
      simp [sinkPair]; omega

/-! ## Claims on the event decoder -/

/-- C1: every event with opcode 36, payload length 24 and a timestamp not above
the cutoff makes `processTraceEvent` end with exactly the two sink calls
`beginContextSwitch(old, time, new, name)` and `endContextSwitch(new, pid, time)`,
in this order and after every query, `(pid, name)` being what the attribution of
the new thread id gave, whatever the tables and the answers of the operating
system; so the sink calls of a run of `n` such events are the `n` pairs in
delivery order. -/
theorem C1_begin_then_end_pairs (tb : Tables) (ds : List Delivery)
    (h : ∀ d ∈ ds, d.ev.Opcode = 36 ∧ d.ev.UserDataLength = 24 ∧ timeOf d.ev ≤ d.cutoff) :
    (∀ d ∈ ds, ∀ tb0 : Tables,
        (processTraceEvent d.cutoff d.os tb0 d.ev).2 =
            (attributeThread d.os tb0 d.ev.UserData.NewThreadId).calls ++
              [Call.beginContextSwitch d.ev.UserData.OldThreadId (timeOf d.ev)
                  d.ev.UserData.NewThreadId
                  (attributeThread d.os tb0 d.ev.UserData.NewThreadId).process_name,
                Call.endContextSwitch d.ev.UserData.NewThreadId
                  (attributeThread d.os tb0 d.ev.UserData.NewThreadId).pid (timeOf d.ev)] ∧
          sinkCalls (attributeThread d.os tb0 d.ev.UserData.NewThreadId).calls = []) ∧
      sinkCalls (run tb ds).2 = (List.zipWith sinkPair ds (attributions tb ds)).flatten ∧
      (attributions tb ds).length = ds.length ∧
      (sinkCalls (run tb ds).2).length = 2 * ds.length := by
  have hacc : ∀ d ∈ ds, accepted d := fun d hd => (accepted_iff d).2 (h d hd)
  refine ⟨fun d hd tb0 => ⟨?_, sinkCalls_attributeThread _ _ _⟩, sinkCalls_run tb ds hacc,
    attributions_length tb ds, ?_⟩
  · rw [processTraceEvent_accepted d tb0 (hacc d hd)]
    rfl
  · rw [sinkCalls_run tb ds hacc]
    exact flatten_zipWith_sinkPair_length ds _ (attributions_length tb ds)

/-- Witness of C1: scenario S1 delivered twice from the initial tables gives two
pairs of sink calls. -/
theorem C1_begin_then_end_pairs_witness :
    sinkCalls (run Tables.initial [dS1, dS1]).2 =
        (List.zipWith sinkPair [dS1, dS1] (attributions Tables.initial [dS1, dS1])).flatten ∧
      (sinkCalls (run Tables.initial [dS1, dS1]).2).length = 2 * [dS1, dS1].length :=
  ⟨(C1_begin_then_end_pairs Tables.initial [dS1, dS1] (by decide)).2.1,
    (C1_begin_then_end_pairs Tables.initial [dS1, dS1] (by decide)).2.2.2⟩

/-- C2: an event whose opcode is not 36, or whose payload length is not 24,
makes `processTraceEvent` return at once: no sink call, no query, both tables
unchanged. -/
theorem C2_event_filtering (cutoff : Nat) (os : Os) (tb : Tables) (ev : EVENT_RECORD)
    (h : ev.Opcode ≠ 36 ∨ ev.UserDataLength ≠ 24) :
    processTraceEvent cutoff os tb ev = (tb, []) ∧
      sinkCalls (processTraceEvent cutoff os tb ev).2 = [] ∧
      (processTraceEvent cutoff os tb ev).2.filter Call.isQuery = [] ∧
      (processTraceEvent cutoff os tb ev).1.PROCESS_INFO_TABLE = tb.PROCESS_INFO_TABLE ∧
      (processTraceEvent cutoff os tb ev).1.THREAD_PROCESS_INFO_TABLE
        = tb.THREAD_PROCESS_INFO_TABLE := by
  have key : processTraceEvent cutoff os tb ev = (tb, []) := by
    apply processTraceEvent_rejected
    intro hacc
    have := (accepted_iff _).1 hacc
    rcases h with h | h
    · exact h this.1
    · exact h this.2.1
  simp [key, sinkCalls]

/-- Witness of C2: scenario S4 (opcode 10), and a payload of 23 bytes. -/
theorem C2_event_filtering_witness :
    processTraceEvent 500 osApp Tables.initial { evS1 with Opcode := 10 }
        = (Tables.initial, []) ∧
      processTraceEvent 500 osApp Tables.initial { evS1 with UserDataLength := 23 }
        = (Tables.initial, []) :=
  ⟨(C2_event_filtering 500 osApp Tables.initial { evS1 with Opcode := 10 }
      (Or.inl (by decide))).1,
    (C2_event_filtering 500 osApp Tables.initial { evS1 with UserDataLength := 23 }
      (Or.inr (by decide))).1⟩

/-- C3: an event with opcode 36 and payload length 24 is dropped (nothing called,
tables untouched) exactly when its timestamp is strictly above the cutoff;
otherwise its two sink calls are made, in particular when the timestamp equals
the cutoff and whenever the cutoff is `2^64 - 1`. -/
theorem C3_cutoff_correctness (cutoff : Nat) (os : Os) (tb : Tables) (ev : EVENT_RECORD)
    (hop : ev.Opcode = 36) (hlen : ev.UserDataLength = 24) :
    (processTraceEvent cutoff os tb ev = (tb, []) ↔ cutoff < timeOf ev) ∧
      (sinkCalls (processTraceEvent cutoff os tb ev).2 = [] ↔ cutoff < timeOf ev) ∧
      (timeOf ev ≤ cutoff →
        sinkCalls (processTraceEvent cutoff os tb ev).2 =
          [Call.beginContextSwitch ev.UserData.OldThreadId (timeOf ev) ev.UserData.NewThreadId
              (attributeThread os tb ev.UserData.NewThreadId).process_name,
            Call.endContextSwitch ev.UserData.NewThreadId
              (attributeThread os tb ev.UserData.NewThreadId).pid (timeOf ev)]) ∧
      (timeOf ev = cutoff → (sinkCalls (processTraceEvent cutoff os tb ev).2).length = 2) ∧
      (cutoff = 2 ^ 64 - 1 → (sinkCalls (processTraceEvent cutoff os tb ev).2).length = 2) := by
  have hdrop : cutoff < timeOf ev → processTraceEvent cutoff os tb ev = (tb, []) := by
    intro h
    simp [processTraceEvent, SWITCH_CONTEXT_OPCODE, sizeof_CSwitch, hop, hlen, h]
  have hfwd : timeOf ev ≤ cutoff →
      sinkCalls (processTraceEvent cutoff os tb ev).2 =
        [Call.beginContextSwitch ev.UserData.OldThreadId (timeOf ev) ev.UserData.NewThreadId
            (attributeThread os tb ev.UserData.NewThreadId).process_name,
          Call.endContextSwitch ev.UserData.NewThreadId
            (attributeThread os tb ev.UserData.NewThreadId).pid (timeOf ev)] := by
    intro h
    have hacc : accepted ⟨cutoff, os, ev⟩ := (accepted_iff _).2 ⟨hop, hlen, h⟩
    have := processTraceEvent_accepted ⟨cutoff, os, ev⟩ tb hacc
    simp only at this
    rw [this, sinkCalls_append, sinkCalls_attributeThread, sinkCalls_sinkPair]
    rfl
  have hlen2 : timeOf ev ≤ cutoff →
      (sinkCalls (processTraceEvent cutoff os tb ev).2).length = 2 := by
    intro h; rw [hfwd h]; rfl
  refine ⟨⟨fun h => ?_, hdrop⟩, ⟨fun h => ?_, fun h => ?_⟩, hfwd,
    fun h => hlen2 (le_of_eq h), fun h => ?_⟩
  · by_contra hc
    have := hlen2 (Nat.not_lt.mp hc)
    rw [h] at this; simp [sinkCalls] at this
  · by_contra hc
    have := hlen2 (Nat.not_lt.mp hc)
    rw [h] at this; simp at this
  · rw [hdrop h]; rfl
  · apply hlen2
    have := timeOf_lt ev
    omega

/-- Witness of C3: with cutoff 500 (scenario S5) the event of time 501 is
dropped, and the event of time 500 is forwarded. -/
theorem C3_cutoff_correctness_witness :
    processTraceEvent 500 osApp Tables.initial { evS1 with TimeStamp := 501 }
        = (Tables.initial, []) ∧
      (sinkCalls (processTraceEvent 500 osApp Tables.initial
        { evS1 with TimeStamp := 500 }).2).length = 2 :=
  ⟨(C3_cutoff_correctness 500 osApp Tables.initial { evS1 with TimeStamp := 501 }
      (by decide) (by decide)).1.2 (by decide),
    (C3_cutoff_correctness 500 osApp Tables.initial { evS1 with TimeStamp := 500 }
      (by decide) (by decide)).2.2.2.1 (by decide)⟩

/-! ## What holds of the tables throughout a session -/

theorem string_length_eq_zero (s : String) : s.length = 0 ↔ s = "" := by
  cases s with
  | mk l =>
    constructor
    · intro h
      have hl : l = [] := List.length_eq_zero.mp h
      subst hl; rfl
    · intro h
      rw [h]; rfl

theorem resolveName_valid (os : Os) (pid : Nat) (pinfo : ProcessInfo) (hv : pinfo.valid ≠ 0) :
    resolveName os pid pinfo = (pinfo, []) := by
  simp [resolveName, hv]

theorem resolveName_uninit (os : Os) (pid : Nat) (pinfo : ProcessInfo) (hv : pinfo.valid = 0)
    (hn : pinfo = {} ∨ NodeOk pid pinfo) :
    resolveName os pid pinfo =
      match os.OpenProcess pid with
      | some hProc =>
        (if os.GetModuleBaseName hProc = "" then { name := toString pid, id := pid, valid := 0 }
          else { name := toString pid ++ " " ++ os.GetModuleBaseName hProc, id := pid,
                 valid := 1 },
          [Call.OpenProcess pid, Call.GetModuleBaseName hProc, Call.CloseHandle hProc])
      | none =>
        ({ name := toString pid ++ (if pid = 4 then " System" else ""), id := pid, valid := -1 },
          [Call.OpenProcess pid]) := by
  obtain ⟨n, i, v⟩ := pinfo
  simp only at hv
  subst hv
  have h1 : (if n = "" then ({ name := toString pid, id := pid, valid := 0 } : ProcessInfo)
      else { name := n, id := i, valid := 0 })
      = { name := toString pid, id := pid, valid := 0 } := by
    rcases hn with hn | hn
    · have hn' : n = "" := congrArg ProcessInfo.name hn
      simp [hn']
    · obtain ⟨hid, hname⟩ := hn
      have hid' : i = pid := hid
      have hn' : n = toString pid := hname rfl
      subst hid'
      subst hn'
      split <;> rfl
  unfold resolveName
  simp only [if_true, h1]
  cases os.OpenProcess pid with
  | none =>
    by_cases h4 : pid = 4
    · simp [h4]
    · simp [h4]
  | some hProc =>
    by_cases hb : os.GetModuleBaseName hProc = ""
    · simp [hb]
    · have hl : (os.GetModuleBaseName hProc).length ≠ 0 :=
        fun e => hb ((string_length_eq_zero _).1 e)
      simp [hb, hl]

theorem NodeOk_resolveName (os : Os) (pid : Nat) (pinfo : ProcessInfo)
    (hn : pinfo = {} ∨ NodeOk pid pinfo) : NodeOk pid (resolveName os pid pinfo).1 := by
  by_cases hv : pinfo.valid = 0
  · rw [resolveName_uninit os pid pinfo hv hn]
    cases os.OpenProcess pid with
    | none => simp [NodeOk]
    | some hProc =>
      by_cases hb : os.GetModuleBaseName hProc = ""
      · simp [NodeOk, hb]
      · simp [NodeOk, hb]
  · rw [resolveName_valid os pid pinfo hv]
    rcases hn with hn | hn
    · subst hn; exact absurd rfl hv
    · exact hn

theorem getD_default_or_NodeOk (t : List (Nat × ProcessInfo)) (pid : Nat)
    (h : ∀ p info, tfind t p = some info → NodeOk p info) :
    (tfind t pid).getD {} = {} ∨ NodeOk pid ((tfind t pid).getD {}) := by
  cases hf : tfind t pid with
  | none => left; rfl
  | some info => right; exact h pid info hf

theorem TablesOk_initial : TablesOk Tables.initial := by
  refine ⟨rfl, ?_⟩
  intro p info h
  simp [Tables.initial, tfind] at h

theorem TablesOk_attributeThread (os : Os) (tb : Tables) (t : Nat) (h : TablesOk tb) :
    TablesOk (attributeThread os tb t).tables := by
  obtain ⟨h0, hp⟩ := h
  unfold attributeThread
  cases hf : tfind tb.THREAD_PROCESS_INFO_TABLE t with
  | none =>
    have ht : t ≠ 0 := by
      intro e; subst e; rw [h0] at hf; cases hf
    cases ho : os.OpenThread t with
    | none =>
      simp only
      exact ⟨by simp only [tfind_tset_ne _ _ _ _ ht, h0], hp⟩
    | some hThread =>
      simp only
      refine ⟨by simp only [tfind_tset_ne _ _ _ _ ht, h0], ?_⟩
      intro p info hfind
      by_cases hpe : os.GetProcessIdOfThread hThread = p
      · subst hpe
        rw [tfind_tset_self] at hfind
        cases hfind
        rw [tfind_subscript_self]
        exact NodeOk_resolveName _ _ _ (getD_default_or_NodeOk _ _ hp)
      · rw [tfind_tset_ne _ _ _ _ hpe, tfind_subscript_ne _ _ _ hpe] at hfind
        exact hp p info hfind
  | some v =>
    cases v with
    | none => exact ⟨h0, hp⟩
    | some key => exact ⟨h0, hp⟩

theorem TablesOk_processTraceEvent (cutoff : Nat) (os : Os) (tb : Tables) (ev : EVENT_RECORD)
    (h : TablesOk tb) : TablesOk (processTraceEvent cutoff os tb ev).1 := by
  by_cases hacc : accepted ⟨cutoff, os, ev⟩
  · have := processTraceEvent_accepted ⟨cutoff, os, ev⟩ tb hacc
    simp only at this
    rw [this]
    exact TablesOk_attributeThread os tb _ h
  · rw [processTraceEvent_rejected cutoff os tb ev hacc]
    exact h

theorem Reachable_TablesOk (tb : Tables) (h : Reachable tb) : TablesOk tb := by
  induction h with
  | initial => exact TablesOk_initial
  | step tb cutoff os ev _ ih => exact TablesOk_processTraceEvent cutoff os tb ev ih

theorem attributeThread_miss_opened (os : Os) (tb : Tables) (t hThread : Nat)
    (hmiss : tfind tb.THREAD_PROCESS_INFO_TABLE t = none) (hth : os.OpenThread t = some hThread) :
    attributeThread os tb t =
      { tables :=
          { PROCESS_INFO_TABLE :=
              tset (subscript tb.PROCESS_INFO_TABLE (os.GetProcessIdOfThread hThread))
                (os.GetProcessIdOfThread hThread)
                (resolveName os (os.GetProcessIdOfThread hThread)
                  ((tfind tb.PROCESS_INFO_TABLE (os.GetProcessIdOfThread hThread)).getD {})).1
            THREAD_PROCESS_INFO_TABLE :=
              tset tb.THREAD_PROCESS_INFO_TABLE t (some (os.GetProcessIdOfThread hThread)) }
        pid := os.GetProcessIdOfThread hThread
        process_name :=
          (resolveName os (os.GetProcessIdOfThread hThread)
            ((tfind tb.PROCESS_INFO_TABLE (os.GetProcessIdOfThread hThread)).getD {})).1.name
        calls := [Call.OpenThread t, Call.GetProcessIdOfThread hThread] ++
          (resolveName os (os.GetProcessIdOfThread hThread)
            ((tfind tb.PROCESS_INFO_TABLE (os.GetProcessIdOfThread hThread)).getD {})).2 ++
          [Call.CloseHandle hThread] } := by
  unfold attributeThread
  simp only [hmiss, hth, tfind_subscript_self, Option.getD_some]

/-! ## Claims on the attribution cache -/

/-- C4, the code at a failing input: scenario S1 delivered twice.  The first
event is resolved and forwarded with process id 999; the second, a hit on the
recorded descriptor, is forwarded with the same name but with process id 0. -/
theorem C4_hit_forwards_pid_zero :
    sinkCalls (run Tables.initial [dS1, dS1]).2 =
      [Call.beginContextSwitch 0 100 1234 "999 app.exe", Call.endContextSwitch 1234 999 100,
        Call.beginContextSwitch 0 100 1234 "999 app.exe", Call.endContextSwitch 1234 0 100] := by
  decide

/-- C6: from tables a session can be in, an accepted event whose new thread id
misses, whose thread opens with owner `pid`, whose node for `pid` is absent or
has `valid == 0`, and whose module name reads as the non-empty `m`, leaves the
node `{pid, valid 1, name "<pid> <m>"}`, records the thread against it and is
forwarded as `begin(old, time, new, "<pid> <m>")` then `end(new, pid, time)`. -/
theorem C6_successful_first_resolution (tb : Tables) (d : Delivery)
    (hThread pid hProc : Nat) (m : String)
    (hreach : Reachable tb)
    (hacc : d.ev.Opcode = 36 ∧ d.ev.UserDataLength = 24 ∧ timeOf d.ev ≤ d.cutoff)
    (hmiss : tfind tb.THREAD_PROCESS_INFO_TABLE d.ev.UserData.NewThreadId = none)
    (hth : d.os.OpenThread d.ev.UserData.NewThreadId = some hThread)
    (hpid : d.os.GetProcessIdOfThread hThread = pid)
    (huninit : ((tfind tb.PROCESS_INFO_TABLE pid).getD {}).valid = 0)
    (hproc : d.os.OpenProcess pid = some hProc)
    (hname : d.os.GetModuleBaseName hProc = m) (hm : m ≠ "") :
    tfind (processTraceEvent d.cutoff d.os tb d.ev).1.PROCESS_INFO_TABLE pid
        = some { name := toString pid ++ " " ++ m, id := pid, valid := 1 } ∧
      tfind (processTraceEvent d.cutoff d.os tb d.ev).1.THREAD_PROCESS_INFO_TABLE
          d.ev.UserData.NewThreadId = some (some pid) ∧
      (processTraceEvent d.cutoff d.os tb d.ev).2 =
        [Call.OpenThread d.ev.UserData.NewThreadId, Call.GetProcessIdOfThread hThread,
          Call.OpenProcess pid, Call.GetModuleBaseName hProc, Call.CloseHandle hProc,
          Call.CloseHandle hThread,
          Call.beginContextSwitch d.ev.UserData.OldThreadId (timeOf d.ev)
            d.ev.UserData.NewThreadId (toString pid ++ " " ++ m),
          Call.endContextSwitch d.ev.UserData.NewThreadId pid (timeOf d.ev)] := by
  subst hpid
  have hok := (Reachable_TablesOk tb hreach).2
  have hr := resolveName_uninit d.os _ _ huninit (getD_default_or_NodeOk _ _ hok)
  rw [hproc] at hr
  simp only [hname, hm, if_false] at hr
  rw [processTraceEvent_accepted d tb ((accepted_iff d).2 hacc),
    attributeThread_miss_opened d.os tb _ hThread hmiss hth, hr]
  simp only [tfind_tset_self, sinkPair]
  simp

/-- Witness of C6: scenario S1 from the initial tables gives `"999 app.exe"`. -/
theorem C6_successful_first_resolution_witness :
    (processTraceEvent dS1.cutoff dS1.os Tables.initial dS1.ev).2 =
      [Call.OpenThread 1234, Call.GetProcessIdOfThread 7, Call.OpenProcess 999,
        Call.GetModuleBaseName 8, Call.CloseHandle 8, Call.CloseHandle 7,
        Call.beginContextSwitch 0 100 1234 "999 app.exe", Call.endContextSwitch 1234 999 100] :=
  (C6_successful_first_resolution Tables.initial dS1 7 999 8 "app.exe" Reachable.initial
    (by decide) (by decide) rfl rfl (by decide) rfl rfl (by decide)).2.2

/-- C7, the claim fails: thread 77 of process 4, the process opens and its module
name reads as zero characters.  The node keeps `valid == 0` and the name is `"4"`,
without `" System"`. -/
theorem C7_counterexample :
    accepted dS3opened ∧
      tfind Tables.initial.THREAD_PROCESS_INFO_TABLE 77 = none ∧
      dS3opened.os.OpenThread 77 = some 7 ∧ dS3opened.os.GetProcessIdOfThread 7 = 4 ∧
      tfind Tables.initial.PROCESS_INFO_TABLE 4 = none ∧
      dS3opened.os.OpenProcess 4 = some 8 ∧ dS3opened.os.GetModuleBaseName 8 = "" ∧
      processTraceEvent dS3opened.cutoff dS3opened.os Tables.initial dS3opened.ev =
        ({ PROCESS_INFO_TABLE := [(4, { name := "4", id := 4, valid := 0 })],
           THREAD_PROCESS_INFO_TABLE := [(0, none), (77, some 4)] },
          [Call.OpenThread 77, Call.GetProcessIdOfThread 7, Call.OpenProcess 4,
            Call.GetModuleBaseName 8, Call.CloseHandle 8, Call.CloseHandle 7,
            Call.beginContextSwitch 1 300 77 "4", Call.endContextSwitch 77 4 300]) := by
  decide

/-- C7 as amended: from tables a session can be in, for an accepted event whose
new thread id misses, whose thread opens with owner `pid` and whose node for
`pid` is absent or has `valid == 0`: when the process cannot be opened the node
becomes `{pid, valid -1}` named by the decimal form of `pid`, followed by
`" System"` when `pid == 4`; when the process opens and the name reads as zero
characters the node becomes `{pid, valid 0}` named by the decimal form of `pid`
alone.  In both cases the event is forwarded with that name and with `pid`. -/
theorem C7_failed_first_resolution (tb : Tables) (d : Delivery) (hThread pid : Nat)
    (hreach : Reachable tb)
    (hacc : d.ev.Opcode = 36 ∧ d.ev.UserDataLength = 24 ∧ timeOf d.ev ≤ d.cutoff)
    (hmiss : tfind tb.THREAD_PROCESS_INFO_TABLE d.ev.UserData.NewThreadId = none)
    (hth : d.os.OpenThread d.ev.UserData.NewThreadId = some hThread)
    (hpid : d.os.GetProcessIdOfThread hThread = pid)
    (huninit : ((tfind tb.PROCESS_INFO_TABLE pid).getD {}).valid = 0) :
    (d.os.OpenProcess pid = none →
        tfind (processTraceEvent d.cutoff d.os tb d.ev).1.PROCESS_INFO_TABLE pid
          = some { name := toString pid ++ (if pid = 4 then " System" else ""), id := pid,
                   valid := -1 } ∧
        (processTraceEvent d.cutoff d.os tb d.ev).2 =
          [Call.OpenThread d.ev.UserData.NewThreadId, Call.GetProcessIdOfThread hThread,
            Call.OpenProcess pid, Call.CloseHandle hThread,
            Call.beginContextSwitch d.ev.UserData.OldThreadId (timeOf d.ev)
              d.ev.UserData.NewThreadId (toString pid ++ (if pid = 4 then " System" else "")),
            Call.endContextSwitch d.ev.UserData.NewThreadId pid (timeOf d.ev)]) ∧
      (∀ hProc, d.os.OpenProcess pid = some hProc → d.os.GetModuleBaseName hProc = "" →
        tfind (processTraceEvent d.cutoff d.os tb d.ev).1.PROCESS_INFO_TABLE pid
          = some { name := toString pid, id := pid, valid := 0 } ∧
        (processTraceEvent d.cutoff d.os tb d.ev).2 =
          [Call.OpenThread d.ev.UserData.NewThreadId, Call.GetProcessIdOfThread hThread,
            Call.OpenProcess pid, Call.GetModuleBaseName hProc, Call.CloseHandle hProc,
            Call.CloseHandle hThread,
            Call.beginContextSwitch d.ev.UserData.OldThreadId (timeOf d.ev)
              d.ev.UserData.NewThreadId (toString pid),
            Call.endContextSwitch d.ev.UserData.NewThreadId pid (timeOf d.ev)]) := by
  subst hpid
  have hok := (Reachable_TablesOk tb hreach).2
  have hr := resolveName_uninit d.os _ _ huninit (getD_default_or_NodeOk _ _ hok)
  constructor
  · intro hproc
    rw [hproc] at hr
    simp only at hr
    rw [processTraceEvent_accepted d tb ((accepted_iff d).2 hacc),
      attributeThread_miss_opened d.os tb _ hThread hmiss hth, hr]
    simp only [tfind_tset_self, sinkPair]
    simp
  · intro hProc hproc hname
    rw [hproc] at hr
    simp only [hname, if_true] at hr
    rw [processTraceEvent_accepted d tb ((accepted_iff d).2 hacc),
      attributeThread_miss_opened d.os tb _ hThread hmiss hth, hr]
    simp only [tfind_tset_self, sinkPair]
    simp

/-- Witness of C7 as amended: scenario S3 gives `"4 System"` when process 4 cannot
be opened, and `"4"` when it opens and the name reads as zero characters. -/
theorem C7_failed_first_resolution_witness :
    (processTraceEvent dS3.cutoff dS3.os Tables.initial dS3.ev).2 =
        [Call.OpenThread 77, Call.GetProcessIdOfThread 7, Call.OpenProcess 4, Call.CloseHandle 7,
          Call.beginContextSwitch 1 300 77 "4 System", Call.endContextSwitch 77 4 300] ∧
      (processTraceEvent dS3opened.cutoff dS3opened.os Tables.initial dS3opened.ev).2 =
        [Call.OpenThread 77, Call.GetProcessIdOfThread 7, Call.OpenProcess 4,
          Call.GetModuleBaseName 8, Call.CloseHandle 8, Call.CloseHandle 7,
          Call.beginContextSwitch 1 300 77 "4", Call.endContextSwitch 77 4 300] :=
  ⟨((C7_failed_first_resolution Tables.initial dS3 7 4 Reachable.initial
      (by decide) (by decide) rfl rfl (by decide)).1 rfl).2,
    ((C7_failed_first_resolution Tables.initial dS3opened 7 4 Reachable.initial
      (by decide) (by decide) rfl rfl (by decide)).2 8 rfl rfl).2⟩

/-- C8: in every tables a session can be in, thread id 0 is mapped to `nullptr`;
an accepted event whose new thread id hits a `nullptr` entry changes nothing,
makes no query and is forwarded with process id 0 and the label `"System Idle"`
for thread 0, `"System"` for thread 4 and the empty string otherwise; so every
accepted event with new thread id 0 gives `begin(old, time, 0, "System Idle")`
then `end(0, 0, time)`. -/
theorem C8_idle_seed_and_unresolved_labels (tb : Tables) (d : Delivery)
    (hreach : Reachable tb)
    (hacc : d.ev.Opcode = 36 ∧ d.ev.UserDataLength = 24 ∧ timeOf d.ev ≤ d.cutoff) :
    tfind tb.THREAD_PROCESS_INFO_TABLE 0 = some none ∧
      (tfind tb.THREAD_PROCESS_INFO_TABLE d.ev.UserData.NewThreadId = some none →
        processTraceEvent d.cutoff d.os tb d.ev =
          (tb,
            [Call.beginContextSwitch d.ev.UserData.OldThreadId (timeOf d.ev)
                d.ev.UserData.NewThreadId
                (if d.ev.UserData.NewThreadId = 0 then "System Idle"
                  else if d.ev.UserData.NewThreadId = 4 then "System" else ""),
              Call.endContextSwitch d.ev.UserData.NewThreadId 0 (timeOf d.ev)])) ∧
      (d.ev.UserData.NewThreadId = 0 →
        processTraceEvent d.cutoff d.os tb d.ev =
          (tb,
            [Call.beginContextSwitch d.ev.UserData.OldThreadId (timeOf d.ev) 0 "System Idle",
              Call.endContextSwitch 0 0 (timeOf d.ev)])) := by
  have h0 := (Reachable_TablesOk tb hreach).1
  have hhit : tfind tb.THREAD_PROCESS_INFO_TABLE d.ev.UserData.NewThreadId = some none →
      processTraceEvent d.cutoff d.os tb d.ev =
        (tb,
          [Call.beginContextSwitch d.ev.UserData.OldThreadId (timeOf d.ev)
              d.ev.UserData.NewThreadId
              (if d.ev.UserData.NewThreadId = 0 then "System Idle"
                else if d.ev.UserData.NewThreadId = 4 then "System" else ""),
            Call.endContextSwitch d.ev.UserData.NewThreadId 0 (timeOf d.ev)]) := by
    intro hf
    rw [processTraceEvent_accepted d tb ((accepted_iff d).2 hacc)]
    simp [attributeThread, hf, sinkPair]
  refine ⟨h0, hhit, ?_⟩
  intro hz
  have := hhit (by rw [hz]; exact h0)
  rw [this, hz]
  rfl

/-- Witness of C8: scenario S2, after scenario S1 has been processed. -/
theorem C8_idle_seed_and_unresolved_labels_witness :
    processTraceEvent dS2.cutoff dS2.os
        (processTraceEvent dS1.cutoff dS1.os Tables.initial dS1.ev).1 dS2.ev =
      ((processTraceEvent dS1.cutoff dS1.os Tables.initial dS1.ev).1,
        [Call.beginContextSwitch 1234 200 0 "System Idle", Call.endContextSwitch 0 0 200]) :=
  (C8_idle_seed_and_unresolved_labels _ dS2
    (Reachable.step _ dS1.cutoff dS1.os dS1.ev Reachable.initial) (by decide)).2.2 rfl

/-! ## Counting the module-name queries -/

theorem startTrace_other (results : Nat → Nat) (force : Bool) (step : Int)
    (h : results 0 ≠ 183) :
    startTrace results force step = (statusOfResult (results 0), [CtlCall.StartTrace (results 0)]) := by
  rw [startTrace]
  simp only [ERROR_SUCCESS, ERROR_ALREADY_EXISTS, ERROR_ACCESS_DENIED, ERROR_BAD_LENGTH,
    statusOfResult, h, if_false]
  split_ifs <;> rfl

theorem startTrace_retry (results : Nat → Nat) (step : Int) (h : results 0 = 183)
    (hs : step < 4) :
    startTrace results true step =
      ((startTrace (fun i => results (i + 1)) true (step + 1)).1,
        [CtlCall.StartTrace 183] ++ (if step = 0 then [CtlCall.ControlTrace_STOP 0] else []) ++
          [CtlCall.sleep_for 500] ++ (startTrace (fun i => results (i + 1)) true (step + 1)).2) := by
  rw [startTrace]
  simp [ERROR_SUCCESS, ERROR_ALREADY_EXISTS, h, hs]

theorem startTrace_giveup (results : Nat → Nat) (step : Int) (h : results 0 = 183)
    (hs : ¬ step < 4) :
    startTrace results true step =
      (EVENT_TRACING_WAS_LAUNCHED_BY_SOMEBODY_ELSE,
        [CtlCall.StartTrace 183] ++ (if step = 0 then [CtlCall.ControlTrace_STOP 0] else [])) := by
  rw [startTrace]
  simp [ERROR_SUCCESS, ERROR_ALREADY_EXISTS, h, hs]

theorem startTrace_noforce (results : Nat → Nat) (step : Int) (h : results 0 = 183) :
    startTrace results false step =
      (EVENT_TRACING_WAS_LAUNCHED_BY_SOMEBODY_ELSE, [CtlCall.StartTrace 183]) := by
  rw [startTrace]
  simp [ERROR_SUCCESS, ERROR_ALREADY_EXISTS, h]

theorem statusOfResult_ne_preempted (r : Nat) :
    statusOfResult r ≠ EVENT_TRACING_WAS_LAUNCHED_BY_SOMEBODY_ELSE := by
  unfold statusOfResult
  split_ifs <;> simp

theorem startTrace_forced_at (results : Nat → Nat) (k : Nat) (hk : k ≤ 4)
    (hall : ∀ i, i < k → results i = 183) (hne : results k ≠ 183) :
    startTrace results true 0 = (statusOfResult (results k), forcedCalls k (results k)) := by
  interval_cases k
  · rw [startTrace_other _ _ _ hne]; rfl
  · rw [startTrace_retry _ _ (hall 0 (by omega)) (by norm_num),
      startTrace_other _ _ _ hne]
    rfl
  · rw [startTrace_retry _ _ (hall 0 (by omega)) (by norm_num),
      startTrace_retry _ _ (hall 1 (by omega)) (by norm_num),
      startTrace_other _ _ _ hne]
    rfl
  · rw [startTrace_retry _ _ (hall 0 (by omega)) (by norm_num),
      startTrace_retry _ _ (hall 1 (by omega)) (by norm_num),
      startTrace_retry _ _ (hall 2 (by omega)) (by norm_num),
      startTrace_other _ _ _ hne]
    rfl
  · rw [startTrace_retry _ _ (hall 0 (by omega)) (by norm_num),
      startTrace_retry _ _ (hall 1 (by omega)) (by norm_num),
      startTrace_retry _ _ (hall 2 (by omega)) (by norm_num),
      startTrace_retry _ _ (hall 3 (by omega)) (by norm_num),
      startTrace_other _ _ _ hne]
    rfl

theorem startTrace_forced_all (results : Nat → Nat) (hall : ∀ i, i < 5 → results i = 183) :
    startTrace results true 0 =
      (EVENT_TRACING_WAS_LAUNCHED_BY_SOMEBODY_ELSE, forcedCalls 4 183) := by
  rw [startTrace_retry _ _ (hall 0 (by omega)) (by norm_num),
    startTrace_retry _ _ (hall 1 (by omega)) (by norm_num),
    startTrace_retry _ _ (hall 2 (by omega)) (by norm_num),
    startTrace_retry _ _ (hall 3 (by omega)) (by norm_num),
    startTrace_giveup _ _ (hall 4 (by omega)) (by norm_num)]
  rfl

theorem startTrace_forced_cases (results : Nat → Nat) :
    ∃ k last, k ≤ 4 ∧ (k = 0 ↔ results 0 ≠ 183) ∧
      (startTrace results true 0).2 = forcedCalls k last ∧
      ((startTrace results true 0).1 = EVENT_TRACING_WAS_LAUNCHED_BY_SOMEBODY_ELSE ↔
        ∀ i, i < 5 → results i = 183) := by
  by_cases h0 : results 0 = 183
  swap
  · refine ⟨0, results 0, by omega, by simp [h0], ?_, ?_⟩
    · rw [startTrace_forced_at results 0 (by omega) (by intro i hi; omega) h0]
    · rw [startTrace_forced_at results 0 (by omega) (by intro i hi; omega) h0]
      simp only [statusOfResult_ne_preempted, false_iff]
      intro hall
      exact h0 (hall 0 (by omega))
  by_cases h1 : results 1 = 183
  swap
  · have hall : ∀ i, i < 1 → results i = 183 := by
      intro i hi
      interval_cases i
      exact h0
    refine ⟨1, results 1, by omega, by simp [h0], ?_, ?_⟩
    · rw [startTrace_forced_at results 1 (by omega) hall h1]
    · rw [startTrace_forced_at results 1 (by omega) hall h1]
      simp only [statusOfResult_ne_preempted, false_iff]
      intro hall
      exact h1 (hall 1 (by omega))
  by_cases h2 : results 2 = 183
  swap
  · have hall : ∀ i, i < 2 → results i = 183 := by
      intro i hi
      interval_cases i
      · exact h0
      · exact h1
    refine ⟨2, results 2, by omega, by simp [h0], ?_, ?_⟩
    · rw [startTrace_forced_at results 2 (by omega) hall h2]
    · rw [startTrace_forced_at results 2 (by omega) hall h2]
      simp only [statusOfResult_ne_preempted, false_iff]
      intro hall
      exact h2 (hall 2 (by omega))
  by_cases h3 : results 3 = 183
  swap
  · have hall : ∀ i, i < 3 → results i = 183 := by
      intro i hi
      interval_cases i
      · exact h0
      · exact h1
      · exact h2
    refine ⟨3, results 3, by omega, by simp [h0], ?_, ?_⟩
    · rw [startTrace_forced_at results 3 (by omega) hall h3]
    · rw [startTrace_forced_at results 3 (by omega) hall h3]
      simp only [statusOfResult_ne_preempted, false_iff]
      intro hall
      exact h3 (hall 3 (by omega))
  have hall4 : ∀ i, i < 4 → results i = 183 := by
    intro i hi
    interval_cases i
    · exact h0
    · exact h1
    · exact h2
    · exact h3
  by_cases h4 : results 4 = 183
  swap
  · refine ⟨4, results 4, by omega, by simp [h0], ?_, ?_⟩
    · rw [startTrace_forced_at results 4 (by omega) hall4 h4]
    · rw [startTrace_forced_at results 4 (by omega) hall4 h4]
      simp only [statusOfResult_ne_preempted, false_iff]
      intro hall
      exact h4 (hall 4 (by omega))
  have hall5 : ∀ i, i < 5 → results i = 183 := by
    intro i hi
    by_cases hi4 : i < 4
    · exact hall4 i hi4
    · have : i = 4 := by omega
      subst this
      exact h4
  refine ⟨4, 183, by omega, by simp [h0], ?_, ?_⟩
  · rw [startTrace_forced_all results hall5]
  · rw [startTrace_forced_all results hall5]
    simp only [true_iff]
    exact hall5

theorem forcedCalls_counts (k last : Nat) (hk : k ≤ 4) :
    (forcedCalls k last).countP CtlCall.isStartTrace = k + 1 ∧
      (forcedCalls k last).countP CtlCall.isSleep = k ∧
      (forcedCalls k last).count (CtlCall.sleep_for 500) = k ∧
      (forcedCalls k last).countP CtlCall.isStop = (if k = 0 then 0 else 1) ∧
      (forcedCalls k last).count (CtlCall.ControlTrace_STOP 0) = (if k = 0 then 0 else 1) := by
  interval_cases k <;>
    simp [forcedCalls, List.replicate, CtlCall.isStartTrace, CtlCall.isSleep, CtlCall.isStop,
      List.countP_cons, List.count_cons]


/-- C9: `startTrace` with force and step 0 always returns, after at most five
start requests and at most four sleeps, all of 500 ms and one before each retry;
a stop control is issued exactly once if the first result is already-exists
(183) and never otherwise, right after the first request.  When the first `k`
results (`k ≤ 4`) are already-exists and the next is not, the status is the one
mapped from that next result; the status is PREEMPTED exactly when the first
five results are already-exists.  Without force one start request is made and
already-exists gives PREEMPTED. -/
theorem C9_force_restart_bound (results : Nat → Nat) :
    (startTrace results true 0).2.countP CtlCall.isStartTrace ≤ 5 ∧
      (startTrace results true 0).2.countP CtlCall.isSleep ≤ 4 ∧
      (startTrace results true 0).2.countP CtlCall.isSleep =
        (startTrace results true 0).2.count (CtlCall.sleep_for 500) ∧
      (startTrace results true 0).2.countP CtlCall.isSleep + 1 =
        (startTrace results true 0).2.countP CtlCall.isStartTrace ∧
      (startTrace results true 0).2.countP CtlCall.isStop =
        (if results 0 = 183 then 1 else 0) ∧
      (∀ k, k ≤ 4 → (∀ i, i < k → results i = 183) → results k ≠ 183 →
        startTrace results true 0 = (statusOfResult (results k), forcedCalls k (results k))) ∧
      ((∀ i, i < 5 → results i = 183) →
        startTrace results true 0 =
          (EVENT_TRACING_WAS_LAUNCHED_BY_SOMEBODY_ELSE, forcedCalls 4 183)) ∧
      ((startTrace results true 0).1 = EVENT_TRACING_WAS_LAUNCHED_BY_SOMEBODY_ELSE ↔
        ∀ i, i < 5 → results i = 183) ∧
      startTrace results false 0 =
        (if results 0 = 183 then EVENT_TRACING_WAS_LAUNCHED_BY_SOMEBODY_ELSE
          else statusOfResult (results 0),
          [CtlCall.StartTrace (results 0)]) := by
  obtain ⟨k, last, hk, hk0, htr, hst⟩ := startTrace_forced_cases results
  obtain ⟨c1, c2, c3, c4, _⟩ := forcedCalls_counts k last hk
  have hstop : (if k = 0 then 0 else 1) = (if results 0 = 183 then 1 else 0) := by
    by_cases h0 : results 0 = 183
    · have : k ≠ 0 := fun e => (hk0.1 e) h0
      simp [h0, this]
    · have : k = 0 := hk0.2 h0
      simp [h0, this]
  refine ⟨by rw [htr, c1]; omega, by rw [htr, c2]; omega, by rw [htr, c2, c3],
    by rw [htr, c1, c2], by rw [htr, c4, hstop], startTrace_forced_at results,
    startTrace_forced_all results, hst, ?_⟩
  by_cases h0 : results 0 = 183
  · rw [startTrace_noforce results 0 h0]
    simp [h0]
  · rw [startTrace_other results false 0 h0]
    simp [h0]

/-- Witness of C9: scenario S6, already-exists four times and then success, gives
LAUNCHED after one stop control and four sleeps of 500 ms. -/
theorem C9_force_restart_bound_witness :
    startTrace resultsS6 true 0 =
      (EVENT_TRACING_LAUNCHED_SUCCESSFULLY,
        [CtlCall.StartTrace 183, CtlCall.ControlTrace_STOP 0,
          CtlCall.sleep_for 500, CtlCall.StartTrace 183,
          CtlCall.sleep_for 500, CtlCall.StartTrace 183,
          CtlCall.sleep_for 500, CtlCall.StartTrace 183,
          CtlCall.sleep_for 500, CtlCall.StartTrace 0]) :=
  (C9_force_restart_bound resultsS6).2.2.2.2.2.1 4 (by decide) (by decide) (by decide)

/-- C10, the code at a failing input: `enable(false)` on a disabled tracer, the
session starts at once and `OpenTrace` gives the invalid handle.  The status is
OPEN_TRACE_ERROR, the flag stays false and no thread is started, but the last
calls are the successful `StartTrace` and `OpenTrace`: no stop control is issued,
so the kernel session is left running. -/
theorem C10_open_failure_leaves_session_running :
    enable kernelOpenFails {} false =
        ({ m_bEnabled := false, m_lowPriority := false,
           m_openedHandle := INVALID_PROCESSTRACE_HANDLE, m_processThread := false,
           alreadySet := true },
          EVENT_TRACING_OPEN_TRACE_ERROR,
          [CtlCall.OpenProcessToken, CtlCall.LookupPrivilegeValue,
            CtlCall.AdjustTokenPrivileges, CtlCall.CloseHandle 3, CtlCall.StartTrace 0,
            CtlCall.OpenTrace]) ∧
      (enable kernelOpenFails {} false).2.2.countP CtlCall.isStop = 0 := by
  have h : startTrace kernelOpenFails.StartTrace false startTrace_default_step =
      (EVENT_TRACING_LAUNCHED_SUCCESSFULLY, [CtlCall.StartTrace 0]) :=
    startTrace_other _ _ _ (by decide)
  have he : enable kernelOpenFails {} false =
      ({ m_bEnabled := false, m_lowPriority := false,
         m_openedHandle := INVALID_PROCESSTRACE_HANDLE, m_processThread := false,
         alreadySet := true },
        EVENT_TRACING_OPEN_TRACE_ERROR,
        [CtlCall.OpenProcessToken, CtlCall.LookupPrivilegeValue,
          CtlCall.AdjustTokenPrivileges, CtlCall.CloseHandle 3, CtlCall.StartTrace 0,
          CtlCall.OpenTrace]) := by
    unfold enable
    rw [h]
    rfl
  rw [he]
  exact ⟨rfl, rfl⟩

/-! ## Claims on the lifecycle coordinator -/

theorem disable_not_enabled (now : Nat) (inflight : List (Os × EVENT_RECORD)) (c : Coordinator)
    (h : c.tracer.m_bEnabled = false) : disable now inflight c = (c, [], []) := by
  simp [disable, h]

theorem disable_enabled (now : Nat) (inflight : List (Os × EVENT_RECORD)) (c : Coordinator)
    (h : c.tracer.m_bEnabled = true) :
    (disable now inflight c).1 =
        { tracer := { c.tracer with m_processThread := false, m_bEnabled := false }
          tables := { PROCESS_INFO_TABLE := [], THREAD_PROCESS_INFO_TABLE := [(0, none)] }
          TRACING_END_TIME := 2 ^ 64 - 1 } ∧
      (disable now inflight c).2.1 =
        [CtlCall.getCurrentTime, CtlCall.store_TRACING_END_TIME now,
          CtlCall.ControlTrace_STOP c.tracer.m_openedHandle,
          CtlCall.CloseTrace c.tracer.m_openedHandle] ++
          (if c.tracer.m_processThread then [CtlCall.thread_join] else []) ++
          [CtlCall.store_TRACING_END_TIME (2 ^ 64 - 1)] := by
  simp [disable, h, tset]

theorem step_keeps_cutoff (c : Coordinator) (op : Op) (h : c.TRACING_END_TIME = 2 ^ 64 - 1) :
    (c.step op).TRACING_END_TIME = 2 ^ 64 - 1 := by
  cases op with
  | enable k force => exact h
  | disable now inflight =>
    cases hb : c.tracer.m_bEnabled with
    | false =>
      simp only [Coordinator.step, disable_not_enabled now inflight c hb]
      exact h
    | true =>
      simp only [Coordinator.step, (disable_enabled now inflight c hb).1]
  | deliver os ev =>
    simp only [Coordinator.step]
    split
    · exact h
    · exact h

theorem exec_keeps_cutoff (c : Coordinator) (ops : List Op)
    (h : c.TRACING_END_TIME = 2 ^ 64 - 1) : (c.exec ops).TRACING_END_TIME = 2 ^ 64 - 1 := by
  induction ops generalizing c with
  | nil => exact h
  | cons op ops ih =>
    simp only [Coordinator.exec, List.foldl_cons]
    exact ih (c.step op) (step_keeps_cutoff c op h)

/-- C11: on a coordinator whose flag `m_bEnabled` is true, whatever the tables
hold, `disable` first stores the current timestamp in the cutoff, then issues
the stop control, closes the consumer and joins the thread, and returns with
the flag false, `PROCESS_INFO_TABLE` empty, `THREAD_PROCESS_INFO_TABLE` exactly
`{0 -> nullptr}` and the cutoff back at `2^64 - 1`; on a coordinator that is not
enabled it changes nothing and calls nothing.  So after any sequence of
completed `enable` and `disable` calls, with events delivered in between, from a
state whose cutoff is `2^64 - 1` (the initial state is one) the cutoff is
`2^64 - 1`. -/
theorem C11_disable_reset (c : Coordinator) (now : Nat) (inflight : List (Os × EVENT_RECORD))
    (ops : List Op) :
    (c.tracer.m_bEnabled = true →
        (disable now inflight c).1.tracer.m_bEnabled = false ∧
        (disable now inflight c).1.tables.PROCESS_INFO_TABLE = [] ∧
        (disable now inflight c).1.tables.THREAD_PROCESS_INFO_TABLE = [(0, none)] ∧
        (disable now inflight c).1.tables = Tables.initial ∧
        (disable now inflight c).1.TRACING_END_TIME = 2 ^ 64 - 1 ∧
        (disable now inflight c).2.1 =
          [CtlCall.getCurrentTime, CtlCall.store_TRACING_END_TIME now,
            CtlCall.ControlTrace_STOP c.tracer.m_openedHandle,
            CtlCall.CloseTrace c.tracer.m_openedHandle] ++
            (if c.tracer.m_processThread then [CtlCall.thread_join] else []) ++
            [CtlCall.store_TRACING_END_TIME (2 ^ 64 - 1)]) ∧
      (c.tracer.m_bEnabled = false → disable now inflight c = (c, [], [])) ∧
      (c.TRACING_END_TIME = 2 ^ 64 - 1 → (c.exec ops).TRACING_END_TIME = 2 ^ 64 - 1) ∧
      Coordinator.initial.TRACING_END_TIME = 2 ^ 64 - 1 ∧
      (Coordinator.initial.exec ops).TRACING_END_TIME = 2 ^ 64 - 1 := by
  refine ⟨fun h => ?_, disable_not_enabled now inflight c, exec_keeps_cutoff c ops, rfl,
    exec_keeps_cutoff _ ops rfl⟩
  obtain ⟨h1, h2⟩ := disable_enabled now inflight c h
  rw [h1, h2]
  exact ⟨rfl, rfl, rfl, rfl, rfl, rfl⟩

/-- Witness of C11: `disable` at time 500 on an enabled coordinator whose tables
hold process 999 and thread 1234, while an event of time 501 is still in flight;
`disable` on the initial, not enabled coordinator; and `enable`, a delivery and
`disable` in sequence from the initial state. -/
theorem C11_disable_reset_witness :
    ((disable 500 [(osApp, { evS1 with TimeStamp := 501 })] coordinatorBusy).1.tracer.m_bEnabled
          = false ∧
        (disable 500 [(osApp, { evS1 with TimeStamp := 501 })] coordinatorBusy).1.tables
          = Tables.initial ∧
        (disable 500 [(osApp, { evS1 with TimeStamp := 501 })] coordinatorBusy).1.TRACING_END_TIME
          = 2 ^ 64 - 1 ∧
        (disable 500 [(osApp, { evS1 with TimeStamp := 501 })] coordinatorBusy).2.1 =
          [CtlCall.getCurrentTime, CtlCall.store_TRACING_END_TIME 500,
            CtlCall.ControlTrace_STOP 12, CtlCall.CloseTrace 12, CtlCall.thread_join,
            CtlCall.store_TRACING_END_TIME (2 ^ 64 - 1)]) ∧
      disable 500 [] Coordinator.initial = (Coordinator.initial, [], []) ∧
      (Coordinator.initial.exec
        [Op.enable kernelOk false, Op.deliver osApp evS1, Op.disable 500 []]).TRACING_END_TIME
          = 2 ^ 64 - 1 :=
  ⟨⟨((C11_disable_reset coordinatorBusy 500 [(osApp, { evS1 with TimeStamp := 501 })] []).1
        rfl).1,
      ((C11_disable_reset coordinatorBusy 500 [(osApp, { evS1 with TimeStamp := 501 })] []).1
        rfl).2.2.2.1,
      ((C11_disable_reset coordinatorBusy 500 [(osApp, { evS1 with TimeStamp := 501 })] []).1
        rfl).2.2.2.2.1,
      ((C11_disable_reset coordinatorBusy 500 [(osApp, { evS1 with TimeStamp := 501 })] []).1
        rfl).2.2.2.2.2⟩,
    (C11_disable_reset Coordinator.initial 500 [] []).2.1 rfl,
    (C11_disable_reset Coordinator.initial 0 []
      [Op.enable kernelOk false, Op.deliver osApp evS1, Op.disable 500 []]).2.2.2.2⟩

end EasyProfiler
